import Mathlib

/-
Shallow embedding of `src/konsole/konsole-theme-switcher.py`.

The script observes `~/.config/kdeglobals`, resolves the desktop color
scheme to a Konsole profile name, and reconciles every running Konsole
session (plus the persisted default profile in `konsolerc`) to it.

External effects are passed in explicitly:
* the result of a `subprocess.run` call is a `ProcResult` (return code and
  captured stdout);
* the `kreadconfig6` appearance query is an `Option String` (`none` models
  `subprocess.CalledProcessError`, i.e. the `check=True` call raised);
* the per-session `qdbus-qt6 ... setProfile` outcome and the
  `kwriteconfig6` outcome are booleans supplied by a `KEnv` record;
* `time.monotonic()` readings are rationals;
* `print` calls are accumulated as a list of output lines.

String helpers (`pyLower`, `pyStrip`, `pySplitLines`, `pyInt?`) model the
Python `str.lower`, `str.strip`, `str.split` and `int()` primitives at the
ASCII level used by the script.
-/

/-- ASCII model of Python `str.lower` on one character. -/
def asciiLower (c : Char) : Char :=
  if 65 ≤ c.toNat ∧ c.toNat ≤ 90 then Char.ofNat (c.toNat + 32) else c

/-- Model of Python `str.lower`. -/
def pyLower (s : String) : String :=
  ⟨s.data.map asciiLower⟩

/-- Model of Python `str.strip()`: drop whitespace from both ends. -/
def pyStrip (s : String) : String :=
  ⟨((s.data.dropWhile Char.isWhitespace).reverse.dropWhile Char.isWhitespace).reverse⟩

/-- Split a character list at every newline character (Python `split("\n")`). -/
def splitOnNl : List Char → List (List Char)
  | [] => [[]]
  | a :: t =>
    let r := splitOnNl t
    if a == '\n' then [] :: r
    else
      match r with
      | [] => [[a]]
      | h :: t2 => (a :: h) :: t2

/-- Model of Python `s.split("\n")`. -/
def pySplitLines (s : String) : List String :=
  (splitOnNl s.data).map (fun l => ⟨l⟩)

/-- Boolean test: the first list is an initial segment of the second. -/
def listStarts : List Char → List Char → Bool
  | [], _ => true
  | _ :: _, [] => false
  | a :: na, b :: nb => a == b && listStarts na nb

/-- Boolean test: `needle` occurs contiguously inside the second list
(Python `needle in hay` on strings). -/
def containsSub (needle : List Char) : List Char → Bool
  | [] => listStarts needle []
  | c :: t => listStarts needle (c :: t) || containsSub needle t

/-- Model of the Python substring test `needle in hay`. -/
def strContains (hay needle : String) : Bool :=
  containsSub needle.data hay.data

/-- Model of Python `s.startswith(pre)`. -/
def strStarts (s pre : String) : Bool :=
  listStarts pre.data s.data

/-- Numeric value of an ASCII digit. -/
def digitVal (c : Char) : Nat := c.toNat - 48

/-- Parse a nonempty all-digit character list as a decimal number. -/
def decDigits? (l : List Char) : Option Nat :=
  if l ≠ [] ∧ l.all Char.isDigit then
    some (l.foldl (fun acc c => acc * 10 + digitVal c) 0)
  else none

/-- ASCII-decimal model of Python `int(s)`: optional surrounding whitespace,
optional sign, then a nonempty digit string; `none` models `ValueError`. -/
def pyInt? (s : String) : Option Int :=
  match (pyStrip s).data with
  | '+' :: rest => (decDigits? rest).map (fun n => Int.ofNat n)
  | '-' :: rest => (decDigits? rest).map (fun n => - Int.ofNat n)
  | l => (decDigits? l).map (fun n => Int.ofNat n)

/-- `LIGHT_PROFILE` constant of the script. -/
def LIGHT_PROFILE : String := "Light"

/-- `DARK_PROFILE` constant of the script. -/
def DARK_PROFILE : String := "Dark"

/-- `KDEGLOBALS_NAME` constant of the script. -/
def KDEGLOBALS_NAME : String := "kdeglobals"

/-- `KdeGlobalsHandler.DEBOUNCE_SECONDS` (0.5 seconds). -/
def DEBOUNCE_SECONDS : ℚ := 1/2

/-- Result of a `subprocess.run` call: return code and captured stdout. -/
structure ProcResult where
  returncode : Int
  stdout : String
deriving DecidableEq

/-- The external world the script talks to during one reconciliation:
the `pgrep -x konsole` result, the per-pid `qdbus-qt6 ... /Sessions`
result, and the success of each `setProfile` IPC call. -/
structure KEnv where
  pgrep : ProcResult
  qdbus_sessions : Int → ProcResult
  setProfile_ok : Int → String → String → Bool

/-- Python exception kinds relevant to the script. -/
inductive PyErr where
  | valueError
  | calledProcessError
  | otherError
deriving DecidableEq

/-- `get_kde_color_scheme()`: returns the stripped stdout of the
`kreadconfig6` query, or `""` when the call raised `CalledProcessError`
(modelled by `none`). -/
def get_kde_color_scheme (q : Option String) : String :=
  match q with
  | some out => pyStrip out
  | none => ""

/-- The `dark_indicators` list of `is_dark_scheme`. -/
def dark_indicators : List String :=
  ["dark", "night", "black", "monokai", "dracula", "nord"]

/-- `is_dark_scheme(scheme_name)`: lowercase the name and test whether any
indicator occurs in it as a substring. -/
def is_dark_scheme (scheme_name : String) : Bool :=
  dark_indicators.any (fun indicator => strContains (pyLower scheme_name) indicator)

/-- `get_target_profile()`: resolve the current scheme (query outcome `q`)
to a profile name. -/
def get_target_profile (q : Option String) : String :=
  if is_dark_scheme (get_kde_color_scheme q) then DARK_PROFILE else LIGHT_PROFILE

/-- Body of the list comprehension
`[int(pid) for pid in result.stdout.strip().split("\n") if pid]`:
left-to-right, the first invalid literal raises `ValueError`. -/
def parse_pids : List String → Except PyErr (List Int)
  | [] => Except.ok []
  | p :: t =>
    match pyInt? p with
    | some n =>
      match parse_pids t with
      | Except.ok l => Except.ok (n :: l)
      | Except.error e => Except.error e
    | none => Except.error PyErr.valueError

/-- The `try` body of `get_konsole_pids()`: on return code 0 parse the
nonempty stdout lines as pids, otherwise fall through (to `return []`). -/
def get_konsole_pids_run (r : ProcResult) : Except PyErr (List Int) :=
  if r.returncode = 0 then
    parse_pids ((pySplitLines (pyStrip r.stdout)).filter (fun p => p ≠ ""))
  else
    Except.ok []

/-- `get_konsole_pids()` with its `except (CalledProcessError, ValueError)`
handler made explicit: those two exception kinds are converted to `[]`,
any other exception would propagate. -/
def get_konsole_pids_E (r : ProcResult) : Except PyErr (List Int) :=
  match get_konsole_pids_run r with
  | Except.ok l => Except.ok l
  | Except.error PyErr.valueError => Except.ok []
  | Except.error PyErr.calledProcessError => Except.ok []
  | Except.error e => Except.error e

/-- `get_konsole_pids()` as the list it returns (the error branch is
unreachable, see the totality theorem for claim C10). -/
def get_konsole_pids (r : ProcResult) : List Int :=
  match get_konsole_pids_E r with
  | Except.ok l => l
  | Except.error _ => []

/-- `get_konsole_sessions(pid)` applied to the `qdbus-qt6` call result for
that pid: on return code 0, keep the stdout lines starting with
`/Sessions/`; otherwise the loop body never runs and `[]` is returned. -/
def get_konsole_sessions (r : ProcResult) : List String :=
  if r.returncode = 0 then
    (pySplitLines (pyStrip r.stdout)).filter (fun line => strStarts line "/Sessions/")
  else []

/-- `set_session_profile(pid, session_path, profile)`: `True` exactly when
the `qdbus-qt6 ... setProfile` call (with `check=True`) did not raise. -/
def set_session_profile (env : KEnv) (pid : Int) (session_path : String) (profile : String) : Bool :=
  env.setProfile_ok pid session_path profile

/-- The log line printed by `update_konsolerc_default_profile` when the
`kwriteconfig6` call raises `CalledProcessError`. -/
def KONSOLERC_FAIL_LINE : String :=
  "Failed to update konsolerc: CalledProcessError"

/-- `update_konsolerc_default_profile(profile)`: the exception is caught
inside the function; its only observable effect besides the external write
is the failure log line. -/
def update_konsolerc_default_profile (ok : Bool) : List String :=
  if ok then [] else [KONSOLERC_FAIL_LINE]

/-- The flat `(pid, session)` iteration order of the nested loop in
`switch_all_konsoles`. -/
def konsole_targets (env : KEnv) : List (Int × String) :=
  (get_konsole_pids env.pgrep).flatMap
    (fun pid => (get_konsole_sessions (env.qdbus_sessions pid)).map (fun session => (pid, session)))

/-- The summary line of `switch_all_konsoles`. -/
def switch_summary (count : Nat) (profile : String) : String :=
  "Switched " ++ toString count ++ " Konsole session(s) to '" ++ profile ++ "' profile"

/-- Outcome of one `switch_all_konsoles(profile)` call: the `(pid, session)`
pairs the `set_session_profile` call was issued to, the tallied
`switched_count`, and the printed lines. -/
structure SwitchResult where
  attempted : List (Int × String)
  switched_count : Nat
  output : List String
deriving DecidableEq

/-- `switch_all_konsoles(profile)`: discover all targets, issue
`set_session_profile` to each, count the successes, print one summary. -/
def switch_all_konsoles (env : KEnv) (profile : String) : SwitchResult :=
  { attempted := konsole_targets env
  , switched_count :=
      ((konsole_targets env).filter (fun t => set_session_profile env t.1 t.2 profile)).length
  , output :=
      [switch_summary
        (((konsole_targets env).filter (fun t => set_session_profile env t.1 t.2 profile)).length)
        profile] }

/-- The first line printed by `_debounced_switch` when it applies. -/
def theme_change_line (profile : String) : String :=
  "KDE theme changed. Switching to '" ++ profile ++ "' profile..."

/-- The second line printed by `main` at startup. -/
def startup_line (profile : String) : String :=
  "Current KDE theme detected. Setting '" ++ profile ++ "' profile..."

/-- The two instance fields of `KdeGlobalsHandler`:
`_last_switch_time` (initially `0`) and `_last_profile` (initially `None`,
set by `main` before the watch loop). -/
structure HandlerState where
  last_switch_time : ℚ
  last_profile : Option String
deriving DecidableEq

/-- Observable outcome of one handler callback: the state after the call,
the `switch_all_konsoles` result when one was issued, how many times
`update_konsolerc_default_profile` was called, and the printed lines. -/
structure StepResult where
  state : HandlerState
  reconciled : Option SwitchResult
  persist_calls : Nat
  output : List String
deriving DecidableEq

/-- `KdeGlobalsHandler._debounced_switch`, with the monotonic clock reading
`now`, the appearance query outcome `q`, the IPC world `env` and the
`kwriteconfig6` outcome `persist_ok` passed in explicitly. -/
def debounced_switch (st : HandlerState) (now : ℚ) (q : Option String) (env : KEnv)
    (persist_ok : Bool) : StepResult :=
  if now - st.last_switch_time < DEBOUNCE_SECONDS then
    { state := st, reconciled := none, persist_calls := 0, output := [] }
  else
    if st.last_profile = some (get_target_profile q) then
      { state := st, reconciled := none, persist_calls := 0, output := [] }
    else
      { state := { last_switch_time := now, last_profile := some (get_target_profile q) }
      , reconciled := some (switch_all_konsoles env (get_target_profile q))
      , persist_calls := 1
      , output :=
          theme_change_line (get_target_profile q)
            :: (switch_all_konsoles env (get_target_profile q)).output
            ++ update_konsolerc_default_profile persist_ok }

/-- `KdeGlobalsHandler._should_process(event)`: only events whose name is
exactly `kdeglobals` qualify. -/
def should_process (ev_name : String) : Bool :=
  ev_name == KDEGLOBALS_NAME

/-- `process_IN_CLOSE_WRITE` / `process_IN_MOVED_TO` (both bodies are
identical): run `_debounced_switch` when the event qualifies, otherwise do
nothing. -/
def process_close_write (st : HandlerState) (ev_name : String) (now : ℚ) (q : Option String)
    (env : KEnv) (persist_ok : Bool) : StepResult :=
  if should_process ev_name then debounced_switch st now q env persist_ok
  else { state := st, reconciled := none, persist_calls := 0, output := [] }

/-- Observable outcome of the startup phase of `main` (everything before
`notifier.loop()`): the forced reconciliation, the handler state handed to
the watch loop, and the printed lines. -/
structure MainStartup where
  startup_reconcile : SwitchResult
  handler_state : HandlerState
  output : List String
deriving DecidableEq

/-- Startup phase of `main()`: resolve the current profile, reconcile
unconditionally, persist the default, and initialize the handler with
`_last_switch_time = 0` and `_last_profile` set to the applied profile. -/
def main_startup (q : Option String) (env : KEnv) (persist_ok : Bool) : MainStartup :=
  { startup_reconcile := switch_all_konsoles env (get_target_profile q)
  , handler_state := { last_switch_time := 0, last_profile := some (get_target_profile q) }
  , output :=
      "Konsole Theme Switcher starting..."
        :: startup_line (get_target_profile q)
        :: (switch_all_konsoles env (get_target_profile q)).output
        ++ update_konsolerc_default_profile persist_ok }

/-- An environment with no running Konsole instance (`pgrep` exits 1). -/
def env0 : KEnv :=
  { pgrep := ⟨1, ""⟩
  , qdbus_sessions := fun _ => ⟨1, ""⟩
  , setProfile_ok := fun _ _ _ => false }

/-- One instance (pid 1) with two sessions, of which only `/Sessions/1`
accepts the `setProfile` call. -/
def envOneFail : KEnv :=
  { pgrep := ⟨0, "1"⟩
  , qdbus_sessions := fun _ => ⟨0, "/Sessions/1\n/Sessions/2"⟩
  , setProfile_ok := fun _ session _ => session == "/Sessions/1" }

/-- One instance (pid 1) with a single session that accepts the call. -/
def envOneOk : KEnv :=
  { pgrep := ⟨0, "1"⟩
  , qdbus_sessions := fun _ => ⟨0, "/Sessions/1"⟩
  , setProfile_ok := fun _ _ _ => true }

/-- Scenario D of the spec: three instances (pids 1, 2, 3) with two
sessions each, but pid 2 does not answer the session-list query. -/
def envScenarioD : KEnv :=
  { pgrep := ⟨0, "1\n2\n3"⟩
  , qdbus_sessions := fun pid => if pid = 2 then ⟨1, ""⟩ else ⟨0, "/Sessions/1\n/Sessions/2"⟩
  , setProfile_ok := fun _ _ _ => true }

/-- `listStarts` decides the initial-segment relation. -/
lemma listStarts_iff (n : List Char) : ∀ h : List Char, listStarts n h = true ↔ ∃ t, n ++ t = h := by
  induction n with
  | nil =>
    intro h
    simp only [listStarts, List.nil_append, true_iff]
    exact ⟨h, rfl⟩
  | cons a na ih =>
    intro h
    cases h with
    | nil => simp [listStarts]
    | cons b nb =>
      simp only [listStarts, Bool.and_eq_true, beq_iff_eq, ih, List.cons_append]
      constructor
      · rintro ⟨rfl, t, rfl⟩
        exact ⟨t, rfl⟩
      · rintro ⟨t, e⟩
        injection e with e1 e2
        exact ⟨e1, t, e2⟩

/-- `containsSub` decides contiguous-substring occurrence. -/
lemma containsSub_iff (n : List Char) : ∀ h : List Char,
    containsSub n h = true ↔ ∃ pre post, pre ++ n ++ post = h := by
  intro h
  induction h with
  | nil =>
    simp only [containsSub, listStarts_iff]
    constructor
    · rintro ⟨t, e⟩
      exact ⟨[], t, e⟩
    · rintro ⟨pre, post, e⟩
      rcases List.append_eq_nil.mp e with ⟨e1, e2⟩
      rcases List.append_eq_nil.mp e1 with ⟨e3, e4⟩
      exact ⟨post, by simp [e3, e4, e2]⟩
  | cons c t ih =>
    simp only [containsSub, Bool.or_eq_true, listStarts_iff, ih]
    constructor
    · rintro (⟨u, e⟩ | ⟨pre, post, e⟩)
      · exact ⟨[], u, by simpa using e⟩
      · exact ⟨c :: pre, post, by simp [← e]⟩
    · rintro ⟨pre, post, e⟩
      cases pre with
      | nil =>
        left
        exact ⟨post, by simpa using e⟩
      | cons x xs =>
        right
        have e2 : x :: (xs ++ n ++ post) = c :: t := by simpa using e
        injection e2 with e3 e4
        exact ⟨xs, post, e4⟩

/-- `is_dark_scheme` holds exactly when some dark indicator occurs inside
the lowercased scheme name. -/
lemma is_dark_scheme_iff (s : String) :
    is_dark_scheme s = true ↔
      ∃ k ∈ dark_indicators, ∃ pre post, pre ++ k.data ++ post = (pyLower s).data := by
  simp [is_dark_scheme, strContains, List.any_eq_true, containsSub_iff]

/-- Tallying successes and failures of the per-target calls covers every
attempted target. -/
lemma switched_count_eq (env : KEnv) (profile : String) :
    (switch_all_konsoles env profile).switched_count
      + ((konsole_targets env).filter (fun t => ! set_session_profile env t.1 t.2 profile)).length
      = (konsole_targets env).length := by
  simp only [switch_all_konsoles]
  induction konsole_targets env with
  | nil => simp
  | cons a l ih =>
    cases hp : set_session_profile env a.1 a.2 profile <;>
      simp [List.filter_cons, hp] <;> omega

/-- `parse_pids` only ever raises `ValueError`. -/
lemma parse_pids_err : ∀ (lines : List String) (e : PyErr),
    parse_pids lines = Except.error e → e = PyErr.valueError := by
  intro lines
  induction lines with
  | nil =>
    intro e he
    simp [parse_pids] at he
  | cons p t ih =>
    intro e he
    rw [parse_pids] at he
    cases hi : pyInt? p with
    | some n =>
      rw [hi] at he
      cases hrec : parse_pids t with
      | ok l => rw [hrec] at he; simp at he
      | error e2 =>
        rw [hrec] at he
        simp at he
        exact he ▸ ih e2 hrec
    | none =>
      rw [hi] at he
      simp at he
      exact he.symm

/-- The debounce gate: an event inside the window is a no-op. -/
lemma debounced_switch_debounce (st : HandlerState) (now : ℚ) (q : Option String) (env : KEnv)
    (persist_ok : Bool) (h : now - st.last_switch_time < DEBOUNCE_SECONDS) :
    debounced_switch st now q env persist_ok
      = { state := st, reconciled := none, persist_calls := 0, output := [] } := by
  simp [debounced_switch, h]

/-- The change gate: past the debounce gate, an unchanged resolved profile
is a no-op. -/
lemma debounced_switch_suppressed (st : HandlerState) (now : ℚ) (q : Option String) (env : KEnv)
    (persist_ok : Bool) (h1 : ¬ now - st.last_switch_time < DEBOUNCE_SECONDS)
    (h2 : st.last_profile = some (get_target_profile q)) :
    debounced_switch st now q env persist_ok
      = { state := st, reconciled := none, persist_calls := 0, output := [] } := by
  simp [debounced_switch, h1, h2]

/-- The apply branch: past both gates, the handler records the new state
and reconciles. -/
lemma debounced_switch_apply (st : HandlerState) (now : ℚ) (q : Option String) (env : KEnv)
    (persist_ok : Bool) (h1 : ¬ now - st.last_switch_time < DEBOUNCE_SECONDS)
    (h2 : ¬ st.last_profile = some (get_target_profile q)) :
    debounced_switch st now q env persist_ok
      = { state := { last_switch_time := now, last_profile := some (get_target_profile q) }
        , reconciled := some (switch_all_konsoles env (get_target_profile q))
        , persist_calls := 1
        , output :=
            theme_change_line (get_target_profile q)
              :: (switch_all_konsoles env (get_target_profile q)).output
              ++ update_konsolerc_default_profile persist_ok } := by
  simp [debounced_switch, h1, h2]

/-- A qualifying event reaches `_debounced_switch`. -/
lemma process_qualifying (st : HandlerState) (ev_name : String) (now : ℚ) (q : Option String)
    (env : KEnv) (persist_ok : Bool) (h : should_process ev_name = true) :
    process_close_write st ev_name now q env persist_ok = debounced_switch st now q env persist_ok := by
  simp [process_close_write, h]

/-- A non-qualifying event is ignored with no state change. -/
lemma process_not_qualifying (st : HandlerState) (ev_name : String) (now : ℚ) (q : Option String)
    (env : KEnv) (persist_ok : Bool) (h : should_process ev_name = false) :
    process_close_write st ev_name now q env persist_ok
      = { state := st, reconciled := none, persist_calls := 0, output := [] } := by
  simp [process_close_write, h]

/-- When a callback actually reconciled, the recorded switch time is the
clock reading of that callback. -/
lemma process_reconciled_time (st : HandlerState) (ev_name : String) (now : ℚ) (q : Option String)
    (env : KEnv) (persist_ok : Bool)
    (h : ((process_close_write st ev_name now q env persist_ok).reconciled).isSome = true) :
    (process_close_write st ev_name now q env persist_ok).state.last_switch_time = now := by
  by_cases hn : should_process ev_name = true
  · rw [process_qualifying st ev_name now q env persist_ok hn] at h ⊢
    by_cases h1 : now - st.last_switch_time < DEBOUNCE_SECONDS
    · rw [debounced_switch_debounce st now q env persist_ok h1] at h
      simp at h
    · by_cases h2 : st.last_profile = some (get_target_profile q)
      · rw [debounced_switch_suppressed st now q env persist_ok h1 h2] at h
        simp at h
      · rw [debounced_switch_apply st now q env persist_ok h1 h2]
  · rw [process_not_qualifying st ev_name now q env persist_ok (Bool.not_eq_true _ ▸ hn)] at h
    simp at h

/-- Claim C1 (change suppression): for every prior watcher state, if a
qualifying event passes the debounce gate and the Mode Resolver's output
equals the stored last-applied profile, then no reconciliation occurs:
`switch_all_konsoles` is not invoked (`reconciled = none`),
`update_konsolerc_default_profile` is not invoked (`persist_calls = 0`),
the watcher state is unchanged and nothing is printed. -/
theorem C1_change_suppression (st : HandlerState) (ev_name : String) (now : ℚ)
    (q : Option String) (env : KEnv) (persist_ok : Bool)
    (hq : should_process ev_name = true)
    (hdb : ¬ now - st.last_switch_time < DEBOUNCE_SECONDS)
    (hsame : st.last_profile = some (get_target_profile q)) :
    (process_close_write st ev_name now q env persist_ok).reconciled = none
    ∧ (process_close_write st ev_name now q env persist_ok).persist_calls = 0
    ∧ (process_close_write st ev_name now q env persist_ok).state = st
    ∧ (process_close_write st ev_name now q env persist_ok).output = [] := by
  rw [process_qualifying st ev_name now q env persist_ok hq,
    debounced_switch_suppressed st now q env persist_ok hdb hsame]
  exact ⟨rfl, rfl, rfl, rfl⟩

/-- Witness for C1: a concrete suppressed event at time 10 on the state
left by a startup that applied the Light profile. -/
theorem C1_change_suppression_witness :
    should_process KDEGLOBALS_NAME = true
    ∧ ¬ ((10 : ℚ) - (HandlerState.mk 0 (some LIGHT_PROFILE)).last_switch_time < DEBOUNCE_SECONDS)
    ∧ (HandlerState.mk 0 (some LIGHT_PROFILE)).last_profile = some (get_target_profile (some "Breeze"))
    ∧ ((process_close_write ⟨0, some LIGHT_PROFILE⟩ KDEGLOBALS_NAME 10 (some "Breeze") env0 true).reconciled = none
       ∧ (process_close_write ⟨0, some LIGHT_PROFILE⟩ KDEGLOBALS_NAME 10 (some "Breeze") env0 true).persist_calls = 0
       ∧ (process_close_write ⟨0, some LIGHT_PROFILE⟩ KDEGLOBALS_NAME 10 (some "Breeze") env0 true).state = ⟨0, some LIGHT_PROFILE⟩
       ∧ (process_close_write ⟨0, some LIGHT_PROFILE⟩ KDEGLOBALS_NAME 10 (some "Breeze") env0 true).output = []) :=
  ⟨by decide, by norm_num [DEBOUNCE_SECONDS], by decide,
    C1_change_suppression ⟨0, some LIGHT_PROFILE⟩ KDEGLOBALS_NAME 10 (some "Breeze") env0 true
      (by decide) (by norm_num [DEBOUNCE_SECONDS]) (by decide)⟩

/-- Claim C2, counterexample: two qualifying events 0.1 time-units apart.
The first is change-suppressed (its resolved profile equals the stored
one), so it leaves the state untouched; the second, although closer than
the debounce window to the first, still triggers a reconciliation, because
the window is measured from the last reconciliation, not from the last
qualifying event. -/
theorem C2_debounce_counterexample :
    (101 : ℚ)/10 - 10 < DEBOUNCE_SECONDS
    ∧ (process_close_write ⟨0, some LIGHT_PROFILE⟩ KDEGLOBALS_NAME 10 (some "Breeze") env0 true).reconciled = none
    ∧ (process_close_write ⟨0, some LIGHT_PROFILE⟩ KDEGLOBALS_NAME 10 (some "Breeze") env0 true).state
        = ⟨0, some LIGHT_PROFILE⟩
    ∧ ((process_close_write
          ((process_close_write ⟨0, some LIGHT_PROFILE⟩ KDEGLOBALS_NAME 10 (some "Breeze") env0 true).state)
          KDEGLOBALS_NAME ((101 : ℚ)/10) (some "BreezeDark") env0 true).reconciled).isSome = true := by
  have hsupp : process_close_write ⟨0, some LIGHT_PROFILE⟩ KDEGLOBALS_NAME 10 (some "Breeze") env0 true
      = { state := ⟨0, some LIGHT_PROFILE⟩, reconciled := none, persist_calls := 0, output := [] } := by
    rw [process_qualifying _ _ _ _ _ _ (by decide),
      debounced_switch_suppressed _ _ _ _ _ (by norm_num [DEBOUNCE_SECONDS]) (by decide)]
  refine ⟨by norm_num [DEBOUNCE_SECONDS], ?_, ?_, ?_⟩
  · rw [hsupp]
  · rw [hsupp]
  · rw [hsupp]
    rw [process_qualifying _ _ _ _ _ _ (by decide),
      debounced_switch_apply _ _ _ _ _ (by norm_num [DEBOUNCE_SECONDS]) (by decide)]
    rfl

/-- Claim C2 as amended: the debounce window is armed by reconciliations.
If a qualifying event actually triggers a reconciliation, then any event
arriving less than the debounce window after it triggers no reconciliation
and mutates no state; events farther than the window after the last
reconciliation may each trigger a reconciliation (final, concrete
conjunct). -/
theorem C2_debounce_window (st : HandlerState)
    (n1 : String) (t1 : ℚ) (q1 : Option String) (e1 : KEnv) (p1 : Bool)
    (n2 : String) (t2 : ℚ) (q2 : Option String) (e2 : KEnv) (p2 : Bool)
    (h1 : ((process_close_write st n1 t1 q1 e1 p1).reconciled).isSome = true)
    (h2 : t2 - t1 < DEBOUNCE_SECONDS) :
    (process_close_write (process_close_write st n1 t1 q1 e1 p1).state n2 t2 q2 e2 p2).reconciled = none
    ∧ (process_close_write (process_close_write st n1 t1 q1 e1 p1).state n2 t2 q2 e2 p2).state
        = (process_close_write st n1 t1 q1 e1 p1).state
    ∧ (process_close_write (process_close_write st n1 t1 q1 e1 p1).state n2 t2 q2 e2 p2).persist_calls = 0
    ∧ (process_close_write (process_close_write st n1 t1 q1 e1 p1).state n2 t2 q2 e2 p2).output = []
    ∧ ((process_close_write ⟨10, some DARK_PROFILE⟩ KDEGLOBALS_NAME 11 (some "Breeze") env0 true).reconciled).isSome = true := by
  have hlast : ((process_close_write ⟨(10 : ℚ), some DARK_PROFILE⟩ KDEGLOBALS_NAME 11 (some "Breeze") env0 true).reconciled).isSome = true := by
    rw [process_qualifying _ _ _ _ _ _ (by decide),
      debounced_switch_apply _ _ _ _ _ (by norm_num [DEBOUNCE_SECONDS]) (by decide)]
    rfl
  have ht := process_reconciled_time st n1 t1 q1 e1 p1 h1
  by_cases hn2 : should_process n2 = true
  · have hd : t2 - (process_close_write st n1 t1 q1 e1 p1).state.last_switch_time < DEBOUNCE_SECONDS := by
      rw [ht]
      exact h2
    rw [process_qualifying _ _ _ _ _ _ hn2, debounced_switch_debounce _ _ _ _ _ hd]
    exact ⟨rfl, rfl, rfl, rfl, hlast⟩
  · rw [process_not_qualifying _ _ _ _ _ _ (Bool.eq_false_iff.mpr hn2)]
    exact ⟨rfl, rfl, rfl, rfl, hlast⟩

/-- Witness for C2 (amended): a first event at time 10 reconciles to Dark,
and a second event 0.1 later is discarded with no state change. -/
theorem C2_debounce_window_witness :
    ((process_close_write ⟨0, some LIGHT_PROFILE⟩ KDEGLOBALS_NAME 10 (some "BreezeDark") env0 true).reconciled).isSome = true
    ∧ (101 : ℚ)/10 - 10 < DEBOUNCE_SECONDS
    ∧ ((process_close_write (process_close_write ⟨0, some LIGHT_PROFILE⟩ KDEGLOBALS_NAME 10 (some "BreezeDark") env0 true).state
          KDEGLOBALS_NAME ((101 : ℚ)/10) (some "Breeze") env0 true).reconciled = none
       ∧ (process_close_write (process_close_write ⟨0, some LIGHT_PROFILE⟩ KDEGLOBALS_NAME 10 (some "BreezeDark") env0 true).state
            KDEGLOBALS_NAME ((101 : ℚ)/10) (some "Breeze") env0 true).state
          = (process_close_write ⟨0, some LIGHT_PROFILE⟩ KDEGLOBALS_NAME 10 (some "BreezeDark") env0 true).state
       ∧ (process_close_write (process_close_write ⟨0, some LIGHT_PROFILE⟩ KDEGLOBALS_NAME 10 (some "BreezeDark") env0 true).state
            KDEGLOBALS_NAME ((101 : ℚ)/10) (some "Breeze") env0 true).persist_calls = 0
       ∧ (process_close_write (process_close_write ⟨0, some LIGHT_PROFILE⟩ KDEGLOBALS_NAME 10 (some "BreezeDark") env0 true).state
            KDEGLOBALS_NAME ((101 : ℚ)/10) (some "Breeze") env0 true).output = []
       ∧ ((process_close_write ⟨10, some DARK_PROFILE⟩ KDEGLOBALS_NAME 11 (some "Breeze") env0 true).reconciled).isSome = true) := by
  have h1 : ((process_close_write (⟨0, some LIGHT_PROFILE⟩ : HandlerState) KDEGLOBALS_NAME 10 (some "BreezeDark") env0 true).reconciled).isSome = true := by
    rw [process_qualifying _ _ _ _ _ _ (by decide),
      debounced_switch_apply _ _ _ _ _ (by norm_num [DEBOUNCE_SECONDS]) (by decide)]
    rfl
  have h2 : (101 : ℚ)/10 - 10 < DEBOUNCE_SECONDS := by norm_num [DEBOUNCE_SECONDS]
  exact ⟨h1, h2,
    C2_debounce_window ⟨0, some LIGHT_PROFILE⟩ KDEGLOBALS_NAME 10 (some "BreezeDark") env0 true
      KDEGLOBALS_NAME ((101 : ℚ)/10) (some "Breeze") env0 true h1 h2⟩

/-- Claim C3 (Mode Resolver classification): `is_dark_scheme` holds exactly
when some fixed dark keyword occurs in the lowercased identifier; whenever
the appearance query resolves to identifier `s`, `get_target_profile`
returns Dark exactly on `is_dark_scheme s` and Light otherwise; and the
identifier `"BreezeDark"` resolves to Dark. Determinism is intrinsic:
both are plain functions of the identifier string. -/
theorem C3_mode_resolver (s : String) :
    (is_dark_scheme s = true ↔
      ∃ k ∈ dark_indicators, ∃ pre post, pre ++ k.data ++ post = (pyLower s).data)
    ∧ (∀ q, get_kde_color_scheme q = s →
        get_target_profile q = (if is_dark_scheme s then DARK_PROFILE else LIGHT_PROFILE)
        ∧ (is_dark_scheme s = false → get_target_profile q = LIGHT_PROFILE))
    ∧ get_target_profile (some "BreezeDark") = DARK_PROFILE := by
  refine ⟨is_dark_scheme_iff s, ?_, by decide⟩
  intro q hq
  constructor
  · simp only [get_target_profile, hq]
  · intro hf
    simp only [get_target_profile, hq, hf]
    rfl

/-- Witness for C3: the query result `"BreezeDark"` resolves to Dark. -/
theorem C3_mode_resolver_witness :
    get_kde_color_scheme (some "BreezeDark") = "BreezeDark"
    ∧ (is_dark_scheme "BreezeDark" = true ↔
        ∃ k ∈ dark_indicators, ∃ pre post, pre ++ k.data ++ post = (pyLower "BreezeDark").data)
    ∧ get_target_profile (some "BreezeDark")
        = (if is_dark_scheme "BreezeDark" then DARK_PROFILE else LIGHT_PROFILE) :=
  ⟨by decide, (C3_mode_resolver "BreezeDark").1,
    ((C3_mode_resolver "BreezeDark").2.1 (some "BreezeDark") (by decide)).1⟩

/-- Claim C4 (unknown appearance defaults to Light): a failed query yields
the empty identifier, and the empty identifier — or any query resolving to
it — yields the Light profile rather than an error. -/
theorem C4_unknown_defaults_light :
    get_kde_color_scheme none = ""
    ∧ get_target_profile none = LIGHT_PROFILE
    ∧ ∀ q, get_kde_color_scheme q = "" → get_target_profile q = LIGHT_PROFILE := by
  refine ⟨rfl, by decide, ?_⟩
  intro q hq
  simp only [get_target_profile, hq]
  decide

/-- Witness for C4: the failed query (`none`) itself. -/
theorem C4_unknown_defaults_light_witness :
    get_kde_color_scheme none = "" ∧ get_target_profile none = LIGHT_PROFILE :=
  ⟨C4_unknown_defaults_light.1,
    C4_unknown_defaults_light.2.2 none C4_unknown_defaults_light.1⟩

/-- Claim C5 (partial-failure isolation): whenever exactly one discovered
target's `set_session_profile` call fails, the call is still issued to
every target (`attempted` is the whole discovered set), the tallied count
is `attempted - 1`, and the summary reports that count. -/
theorem C5_partial_failure_isolation (env : KEnv) (profile : String)
    (h : ((konsole_targets env).filter
        (fun t => ! set_session_profile env t.1 t.2 profile)).length = 1) :
    (switch_all_konsoles env profile).attempted = konsole_targets env
    ∧ (switch_all_konsoles env profile).switched_count = (konsole_targets env).length - 1
    ∧ (switch_all_konsoles env profile).output
        = [switch_summary ((konsole_targets env).length - 1) profile] := by
  have hsum := switched_count_eq env profile
  have hcnt : (switch_all_konsoles env profile).switched_count
      = (konsole_targets env).length - 1 := by omega
  refine ⟨rfl, hcnt, ?_⟩
  simp only [switch_all_konsoles] at hcnt ⊢
  rw [hcnt]

/-- Witness for C5: one instance with two sessions, of which exactly one
rejects the call. -/
theorem C5_partial_failure_isolation_witness :
    ((konsole_targets envOneFail).filter
        (fun t => ! set_session_profile envOneFail t.1 t.2 DARK_PROFILE)).length = 1
    ∧ ((switch_all_konsoles envOneFail DARK_PROFILE).attempted = konsole_targets envOneFail
       ∧ (switch_all_konsoles envOneFail DARK_PROFILE).switched_count
           = (konsole_targets envOneFail).length - 1
       ∧ (switch_all_konsoles envOneFail DARK_PROFILE).output
           = [switch_summary ((konsole_targets envOneFail).length - 1) DARK_PROFILE]) :=
  ⟨by decide, C5_partial_failure_isolation envOneFail DARK_PROFILE (by decide)⟩

/-- Claim C6 (discovery-failure isolation): an instance whose session-list
query fails contributes zero session targets, while reconciliation still
attempts exactly the discovered targets; in the spec's Scenario D (three
instances with two sessions each, pid 2 unresponsive) exactly the four
sessions of the responsive instances are attempted. Discovery is a total
function, so it never aborts. -/
theorem C6_discovery_failure_isolation (env : KEnv) (pid : Int)
    (h : (env.qdbus_sessions pid).returncode ≠ 0) :
    get_konsole_sessions (env.qdbus_sessions pid) = []
    ∧ (∀ profile, (switch_all_konsoles env profile).attempted = konsole_targets env)
    ∧ (switch_all_konsoles envScenarioD DARK_PROFILE).attempted
        = [(1, "/Sessions/1"), (1, "/Sessions/2"), (3, "/Sessions/1"), (3, "/Sessions/2")]
    ∧ (switch_all_konsoles envScenarioD DARK_PROFILE).attempted.length = 4 := by
  refine ⟨?_, fun _ => rfl, by decide, by decide⟩
  simp [get_konsole_sessions, h]

/-- Witness for C6: Scenario D itself, with pid 2 unresponsive. -/
theorem C6_discovery_failure_isolation_witness :
    (envScenarioD.qdbus_sessions 2).returncode ≠ 0
    ∧ get_konsole_sessions (envScenarioD.qdbus_sessions 2) = []
    ∧ (switch_all_konsoles envScenarioD DARK_PROFILE).attempted.length = 4 :=
  ⟨by decide, (C6_discovery_failure_isolation envScenarioD 2 (by decide)).1,
    (C6_discovery_failure_isolation envScenarioD 2 (by decide)).2.2.2⟩

/-- Claim C7, counterexample: the reconciliation summary line does not
report how many sessions were discovered. Two reconciliations with
different discovered counts (2 targets with one failure, versus 1 target
with no failure) print exactly the same line, so the line cannot convey
`targetsAttempted`. -/
theorem C7_summary_counterexample :
    (switch_all_konsoles envOneFail DARK_PROFILE).attempted.length = 2
    ∧ (switch_all_konsoles envOneOk DARK_PROFILE).attempted.length = 1
    ∧ (switch_all_konsoles envOneFail DARK_PROFILE).switched_count = 1
    ∧ (switch_all_konsoles envOneOk DARK_PROFILE).switched_count = 1
    ∧ (switch_all_konsoles envOneFail DARK_PROFILE).output
        = (switch_all_konsoles envOneOk DARK_PROFILE).output := by
  decide

/-- Claim C7 as amended: every reconciliation emits exactly one summary
line, reporting the switched count and the profile name (but not the
discovered count), with no per-session error detail. -/
theorem C7_summary_line (env : KEnv) (profile : String) :
    (switch_all_konsoles env profile).output
      = [switch_summary (switch_all_konsoles env profile).switched_count profile]
    ∧ (switch_all_konsoles env profile).output.length = 1 :=
  ⟨rfl, rfl⟩

/-- Claim C8 (default-profile persistence): `_debounced_switch` calls
`update_konsolerc_default_profile` exactly once when it reconciles and
never otherwise; persistence runs after the per-target applications (its
failure line is appended after the reconciliation output); and a failed
persistence write changes neither the resulting state nor the
reconciliation accounting — it only adds the logged failure line. The
exception is caught inside `update_konsolerc_default_profile`, so no error
reaches the caller in any case. -/
theorem C8_persist_default (st : HandlerState) (now : ℚ) (q : Option String) (env : KEnv) :
    (∀ persist_ok, (debounced_switch st now q env persist_ok).persist_calls
        = if ((debounced_switch st now q env persist_ok).reconciled).isSome = true then 1 else 0)
    ∧ (debounced_switch st now q env false).state = (debounced_switch st now q env true).state
    ∧ (debounced_switch st now q env false).reconciled = (debounced_switch st now q env true).reconciled
    ∧ (((debounced_switch st now q env true).reconciled).isSome = true →
        (debounced_switch st now q env false).output
          = (debounced_switch st now q env true).output ++ [KONSOLERC_FAIL_LINE])
    ∧ (((debounced_switch st now q env true).reconciled).isSome = false →
        (debounced_switch st now q env false).output = []
        ∧ (debounced_switch st now q env true).output = []) := by
  by_cases h1 : now - st.last_switch_time < DEBOUNCE_SECONDS
  · have e : ∀ p, debounced_switch st now q env p
        = { state := st, reconciled := none, persist_calls := 0, output := [] } :=
      fun p => debounced_switch_debounce st now q env p h1
    refine ⟨fun p => by rw [e p]; rfl, by rw [e false, e true], by rw [e false, e true], ?_, ?_⟩
    · intro hs
      rw [e true] at hs
      simp at hs
    · intro _
      rw [e false, e true]
      exact ⟨rfl, rfl⟩
  · by_cases h2 : st.last_profile = some (get_target_profile q)
    · have e : ∀ p, debounced_switch st now q env p
          = { state := st, reconciled := none, persist_calls := 0, output := [] } :=
        fun p => debounced_switch_suppressed st now q env p h1 h2
      refine ⟨fun p => by rw [e p]; rfl, by rw [e false, e true], by rw [e false, e true], ?_, ?_⟩
      · intro hs
        rw [e true] at hs
        simp at hs
      · intro _
        rw [e false, e true]
        exact ⟨rfl, rfl⟩
    · have e : ∀ p, debounced_switch st now q env p
          = { state := { last_switch_time := now, last_profile := some (get_target_profile q) }
            , reconciled := some (switch_all_konsoles env (get_target_profile q))
            , persist_calls := 1
            , output :=
                theme_change_line (get_target_profile q)
                  :: (switch_all_konsoles env (get_target_profile q)).output
                  ++ update_konsolerc_default_profile p } :=
        fun p => debounced_switch_apply st now q env p h1 h2
      refine ⟨fun p => by rw [e p]; rfl, by rw [e false, e true], by rw [e false, e true], ?_, ?_⟩
      · intro _
        rw [e false, e true]
        simp [update_konsolerc_default_profile]
      · intro hs
        rw [e true] at hs
        simp at hs

/-- Witness for C8: a reconciling call at time 10, where the failed
persistence only appends the failure log line. -/
theorem C8_persist_default_witness :
    ((debounced_switch ⟨0, some LIGHT_PROFILE⟩ 10 (some "BreezeDark") env0 true).reconciled).isSome = true
    ∧ (debounced_switch ⟨0, some LIGHT_PROFILE⟩ 10 (some "BreezeDark") env0 true).persist_calls
        = (if ((debounced_switch ⟨0, some LIGHT_PROFILE⟩ 10 (some "BreezeDark") env0 true).reconciled).isSome = true then 1 else 0)
    ∧ (debounced_switch ⟨0, some LIGHT_PROFILE⟩ 10 (some "BreezeDark") env0 false).output
        = (debounced_switch ⟨0, some LIGHT_PROFILE⟩ 10 (some "BreezeDark") env0 true).output ++ [KONSOLERC_FAIL_LINE] := by
  have hs : ((debounced_switch (⟨0, some LIGHT_PROFILE⟩ : HandlerState) 10 (some "BreezeDark") env0 true).reconciled).isSome = true := by
    rw [debounced_switch_apply _ _ _ _ _ (by norm_num [DEBOUNCE_SECONDS]) (by decide)]
    rfl
  exact ⟨hs, (C8_persist_default ⟨0, some LIGHT_PROFILE⟩ 10 (some "BreezeDark") env0).1 true,
    (C8_persist_default ⟨0, some LIGHT_PROFILE⟩ 10 (some "BreezeDark") env0).2.2.2.1 hs⟩

/-- Claim C9 (startup forcing): the startup phase of `main` reconciles
exactly once, unconditionally using the Mode Resolver's current output (no
comparison with any previous profile is possible: the reconciliation value
is fixed for every environment), records the resolved profile into the
handler state before the watch loop, and consequently any immediately
following event resolving to the same profile is suppressed with no state
change. -/
theorem C9_startup_forcing (q : Option String) (env : KEnv) (persist_ok : Bool) :
    (main_startup q env persist_ok).startup_reconcile
        = switch_all_konsoles env (get_target_profile q)
    ∧ (main_startup q env persist_ok).handler_state
        = { last_switch_time := 0, last_profile := some (get_target_profile q) }
    ∧ ∀ ev_name t q2 env2 p2, get_target_profile q2 = get_target_profile q →
        process_close_write (main_startup q env persist_ok).handler_state ev_name t q2 env2 p2
          = { state := (main_startup q env persist_ok).handler_state
            , reconciled := none, persist_calls := 0, output := [] } := by
  refine ⟨rfl, rfl, ?_⟩
  intro ev_name t q2 env2 p2 hsame
  by_cases hn : should_process ev_name = true
  · rw [process_qualifying _ _ _ _ _ _ hn]
    by_cases hdb : t - (main_startup q env persist_ok).handler_state.last_switch_time < DEBOUNCE_SECONDS
    · exact debounced_switch_debounce _ _ _ _ _ hdb
    · refine debounced_switch_suppressed _ _ _ _ _ hdb ?_
      show (main_startup q env persist_ok).handler_state.last_profile = some (get_target_profile q2)
      rw [hsame]
      rfl
  · exact process_not_qualifying _ _ _ _ _ _ (Bool.eq_false_iff.mpr hn)

/-- Witness for C9: startup with the Dark scheme current; an identical
event right after startup (at time 10) is suppressed. -/
theorem C9_startup_forcing_witness :
    (main_startup (some "BreezeDark") env0 true).startup_reconcile
        = switch_all_konsoles env0 (get_target_profile (some "BreezeDark"))
    ∧ get_target_profile (some "BreezeDark") = get_target_profile (some "BreezeDark")
    ∧ process_close_write (main_startup (some "BreezeDark") env0 true).handler_state
          KDEGLOBALS_NAME 10 (some "BreezeDark") env0 true
        = { state := (main_startup (some "BreezeDark") env0 true).handler_state
          , reconciled := none, persist_calls := 0, output := [] } :=
  ⟨(C9_startup_forcing (some "BreezeDark") env0 true).1, rfl,
    (C9_startup_forcing (some "BreezeDark") env0 true).2.2
      KDEGLOBALS_NAME 10 (some "BreezeDark") env0 true rfl⟩

/-- Claim C10 (implicit; target-instance enumeration is total): for every
outcome of the `pgrep` call — non-zero exit status, or stdout lines that
are not valid integer literals — `get_konsole_pids` returns a (possibly
empty) list of integers and its exception handler leaves no uncaught
exception: the `Except`-level model always lands in `ok`. The concrete
conjuncts exercise the non-zero exit, an invalid line, and a normal run. -/
theorem C10_get_konsole_pids_total (r : ProcResult) :
    (∃ l : List Int, get_konsole_pids_E r = Except.ok l ∧ get_konsole_pids r = l)
    ∧ get_konsole_pids ⟨1, ""⟩ = []
    ∧ get_konsole_pids ⟨0, "12\ngarbage"⟩ = []
    ∧ get_konsole_pids ⟨0, "1\n2\n3"⟩ = [1, 2, 3] := by
  refine ⟨?_, by decide, by decide, by decide⟩
  cases hrun : get_konsole_pids_run r with
  | ok l =>
    have hE : get_konsole_pids_E r = Except.ok l := by
      unfold get_konsole_pids_E
      rw [hrun]
    refine ⟨l, hE, ?_⟩
    unfold get_konsole_pids
    rw [hE]
  | error e =>
    have he : e = PyErr.valueError := by
      unfold get_konsole_pids_run at hrun
      split at hrun
      · exact parse_pids_err _ _ hrun
      · simp at hrun
    subst he
    have hE : get_konsole_pids_E r = Except.ok [] := by
      unfold get_konsole_pids_E
      rw [hrun]
    refine ⟨[], hE, ?_⟩
    unfold get_konsole_pids
    rw [hE]
